import Mathlib

/-!
Verification development for the stock-vspike screener.

Shallow embedding of the core of the repository:
  * `src/src/screener/volume_spike.py`     (spike detection, indicators)
  * `src/src/screener/signal_generator.py` (entry / exit signal engine)
  * `src/src/backtest/strategy.py`         (backtest replay of the same rules)
  * `src/scripts/run_intraday.py`          (live per-ticker loop, persistence)

Conventions of the embedding:
  * prices and volumes are rationals (`ℚ`); pandas `NaN` ("not available")
    is `Option.none`, and a comparison against `none` is `false`, exactly as a
    comparison against `NaN` is `False` in pandas/numpy;
  * a bar series is a `List Bar`; the calendar date of a bar is its index in
    the list (dates are strictly increasing, so the index is a faithful
    order-isomorphic stand-in);
  * Python `round(x, 2)` (float, banker's rounding) is modelled as rational
    rounding to two decimals; no claim depends on the rounded digits.
-/

namespace VSpike

/-! ### Configuration constants (src/src/config.py) -/

def MIN_PRICE : ℚ := 100
def MIN_AVG_TXN_VALUE : ℚ := 1000000
def VOLUME_SMA_WINDOW : Nat := 10
def RVOL_THRESHOLD : ℚ := 4
def PRICE_POSITION_MIN : ℚ := 1/2
def RETRACE_PCT : ℚ := 3
def EMA_PERIOD : Nat := 10
def MFI_PERIOD : Nat := 14
def MFI_MIN : ℚ := 20
def SL_PCT : ℚ := 5
def ATR_PERIOD : Nat := 14
def TRAILING_STOP_PCT : ℚ := 5/2

/-! ### Data model -/

/-- One daily OHLCV bar (`Open`, `High`, `Low`, `Close`, `Volume` columns). -/
structure Bar where
  opn : ℚ
  high : ℚ
  low : ℚ
  close : ℚ
  volume : ℚ
deriving Repr, DecidableEq

/-- Row access `df.iloc[i]`; out-of-range reads never occur at use sites. -/
def barAt (df : List Bar) (i : Nat) : Bar :=
  df.getD i ⟨0, 0, 0, 0, 0⟩

/-! ### NaN-aware comparisons

pandas propagates `NaN` through arithmetic and makes every comparison with
`NaN` evaluate to `False`; these helpers mirror that on `Option ℚ`. -/

/-- `x >= y` with `NaN >= y = False`. -/
def optGe (x : Option ℚ) (y : ℚ) : Bool :=
  match x with
  | none => false
  | some a => decide (y ≤ a)

/-- `x > y` with `NaN > y = False`. -/
def optGt (x : Option ℚ) (y : ℚ) : Bool :=
  match x with
  | none => false
  | some a => decide (y < a)

/-- `x < y` with `NaN < y = False`. -/
def optLt (x : Option ℚ) (y : ℚ) : Bool :=
  match x with
  | none => false
  | some a => decide (a < y)

/-! ### Rolling statistics (pandas `rolling(window)` semantics) -/

/-- Sum of `f` over the `w` indices ending at `i` (assumes `w ≤ i + 1`). -/
def rollingSum (f : Nat → ℚ) (w i : Nat) : ℚ :=
  ((List.range w).map (fun j => f (i - j))).sum

/-- `Series.rolling(w).sum()` at index `i`: `NaN` for the first `w - 1` bars. -/
def rollingSumOpt (f : Nat → ℚ) (w i : Nat) : Option ℚ :=
  if 1 ≤ w ∧ w ≤ i + 1 then some (rollingSum f w i) else none

/-- `Series.rolling(w).mean()` at index `i`: `NaN` for the first `w - 1` bars. -/
def rollingMean (f : Nat → ℚ) (w i : Nat) : Option ℚ :=
  if 1 ≤ w ∧ w ≤ i + 1 then some (rollingSum f w i / w) else none

/-- Python `round(x, 2)`, modelled as rational rounding to two decimals. -/
def round2 (x : ℚ) : ℚ :=
  (round (x * 100) : ℤ) / 100

/-! ### Indicator layer (src/src/screener/volume_spike.py and the array
helpers of src/src/backtest/strategy.py) -/

/-- `compute_rvol` / `_rvol`: `volume / SMA(volume, w)`, with `±inf`
replaced by `NaN` (a zero rolling average yields `NaN` either way). -/
def compute_rvol (df : List Bar) (w i : Nat) : Option ℚ :=
  match rollingMean (fun j => (barAt df j).volume) w i with
  | none => none
  | some s => if s = 0 then none else some ((barAt df i).volume / s)

/-- `compute_avg_txn_value`: rolling mean of `Volume * Close`. -/
def compute_avg_txn_value (df : List Bar) (w i : Nat) : Option ℚ :=
  rollingMean (fun j => (barAt df j).volume * (barAt df j).close) w i

/-- `price_position` / `_price_position`: `(Close - Low) / (High - Low)`,
with `±inf`/`NaN` from a zero range mapped to `NaN`. -/
def price_position (df : List Bar) (i : Nat) : Option ℚ :=
  if (barAt df i).high - (barAt df i).low = 0 then none
  else some (((barAt df i).close - (barAt df i).low)
      / ((barAt df i).high - (barAt df i).low))

/-- `df["Close"].shift(1)` at index `i` (`NaN` on the first row). -/
def prevClose (df : List Bar) (i : Nat) : Option ℚ :=
  if i = 0 then none else some (barAt df (i - 1)).close

/-! ### Spike detection (src/src/screener/volume_spike.py) -/

/-- A detected volume-spike day (`SpikeEvent` dataclass). -/
structure SpikeEvent where
  ticker : String
  date : Nat
  rvol : ℚ
  close : ℚ
  prev_close : ℚ
  pct_change : ℚ
  high : ℚ
  low : ℚ
  volume : ℚ
  avg_txn_value : ℚ
deriving Repr, DecidableEq

/-- The six-filter mask of `detect_spikes` at bar `i`.  `w` is the rolling
window; every call site passes `config.VOLUME_SMA_WINDOW`. -/
def spikeMask (df : List Bar) (w : Nat)
    (rvol_threshold min_price min_avg_txn price_pos_min : ℚ) (i : Nat) : Bool :=
  decide (min_price ≤ (barAt df i).close)
    && optGe (compute_avg_txn_value df w i) min_avg_txn
    && optGe (compute_rvol df w i) rvol_threshold
    && decide ((barAt df i).opn < (barAt df i).close)
    && optGe (price_position df i) price_pos_min
    && optLt (prevClose df i) (barAt df i).close

/-- Build the `SpikeEvent` for a mask-passing bar `i` (the mask guarantees
`i ≥ 1` and that `rvol` / `avg_txn` are available, so the `getD 0`
defaults are never the value used). -/
def mkSpikeEvent (df : List Bar) (ticker : String) (w i : Nat) : SpikeEvent :=
  { ticker := ticker
    date := i
    rvol := round2 ((compute_rvol df w i).getD 0)
    close := (barAt df i).close
    prev_close := (barAt df (i - 1)).close
    pct_change := round2 (((barAt df i).close - (barAt df (i - 1)).close)
        / (barAt df (i - 1)).close * 100)
    high := (barAt df i).high
    low := (barAt df i).low
    volume := (barAt df i).volume
    avg_txn_value := (compute_avg_txn_value df w i).getD 0 }

/-- `detect_spikes`: scan one ticker's bars; short series return `[]`;
qualifying bars each emit one event, in date-ascending order. -/
def detect_spikes (df : List Bar) (ticker : String) (w : Nat)
    (rvol_threshold min_price min_avg_txn price_pos_min : ℚ) : List SpikeEvent :=
  if df.length < w + 1 then []
  else
    ((List.range df.length).filter
        (spikeMask df w rvol_threshold min_price min_avg_txn price_pos_min)).map
      (mkSpikeEvent df ticker w)

/-! ### Signal engine (src/src/screener/signal_generator.py) -/

inductive SignalType where
  | ENTRY
  | TAKE_PROFIT
  | STOP_LOSS
deriving Repr, DecidableEq

inductive TPMode where
  | BREAKOUT      -- 1: exit when price > spike-day high
  | MA_BREAKDOWN  -- 2: exit when close < EMA after being in profit
  | TRAILING      -- 3: trailing stop after reaching profit threshold
deriving Repr, DecidableEq

/-- One row of the DataFrame produced by `enrich`: the raw OHLCV columns
plus the `EMA`, `ATR`, `MFI` and `prev_EMA` columns that `enrich` adds.
`enrich` adds no other column; in particular there is no `prev_close`
column in its output. -/
structure ERow where
  opn : ℚ
  high : ℚ
  low : ℚ
  close : ℚ
  volume : ℚ
  EMA : Option ℚ
  ATR : Option ℚ
  MFI : Option ℚ
  prev_EMA : Option ℚ
deriving Repr, DecidableEq

/-- `Signal` dataclass.  The human-readable `note` is kept as a plain
string; Python's float formatting inside it is abstracted. -/
structure Signal where
  ticker : String
  signal_type : SignalType
  date : Nat
  price : ℚ
  spike_event : SpikeEvent
  entry_price : Option ℚ := none
  sl_price : Option ℚ := none
  tp_price : Option ℚ := none
  note : String := ""
deriving Repr, DecidableEq

/-- `ActivePosition` dataclass. -/
structure ActivePosition where
  ticker : String
  entry_date : Nat
  entry_price : ℚ
  spike_event : SpikeEvent
  sl_price : ℚ
  tp_price : Option ℚ
  highest_since_entry : ℚ := 0
deriving Repr, DecidableEq

/-- `_adaptive_sl`.  `atr` arrives as `latest.get("ATR", 0)` and can be
`NaN`; Python's two-argument `max(pct_dist, atr)` returns `pct_dist` when
`atr` is `NaN` (the `atr > pct_dist` comparison is `False`). -/
def adaptive_sl (pre_spike_close : ℚ) (atr : Option ℚ) (sl_pct : ℚ)
    (entry_price : Option ℚ) : ℚ :=
  let pct_dist := pre_spike_close * sl_pct / 100
  let sl := pre_spike_close - (match atr with
    | none => pct_dist
    | some a => max pct_dist a)
  match entry_price with
  | none => sl
  | some e => if e ≤ sl then e * (1 - sl_pct / 100) else sl

/-- `_is_near_entry`: retraced to within `retrace_pct` of the pre-spike
close; a non-positive anchor short-circuits to `false`. -/
def is_near_entry (current_close pre_spike_close retrace_pct : ℚ) : Bool :=
  if pre_spike_close ≤ 0 then false
  else decide (|current_close - pre_spike_close| / pre_spike_close * 100 ≤ retrace_pct)

/-- `_ema_reclaim` on a row of `enrich`'s output.  The enriched frame has a
`prev_EMA` column but no `prev_close` column, so the source's
`row.get("prev_close", row["Close"])` evaluates to the row's own close,
and `row.get("prev_EMA", row["EMA"])` to the `prev_EMA` value. -/
def ema_reclaim (row : ERow) : Bool :=
  match row.prev_EMA with
  | none => false
  | some pe => optLt row.EMA row.close && decide (row.close ≤ pe)

/-- `check_entry`: evaluate the latest enriched bar for an entry signal
after `spike`.  The latest bar's date is its index `df.length - 1`. -/
def check_entry (df : List ERow) (spike : SpikeEvent)
    (retrace_pct mfi_min : ℚ) : Option Signal :=
  match df.getLast? with
  | none => none
  | some latest =>
    let date := df.length - 1
    if date ≤ spike.date then none
    else
      let near := is_near_entry latest.close spike.prev_close retrace_pct
      let reclaim := ema_reclaim latest
      let mfi_ok := optGe latest.MFI mfi_min
      if near && reclaim && mfi_ok then
        let sl := adaptive_sl spike.prev_close latest.ATR SL_PCT (some latest.close)
        some { ticker := spike.ticker
               signal_type := .ENTRY
               date := date
               price := latest.close
               spike_event := spike
               entry_price := some latest.close
               sl_price := some (round2 sl)
               tp_price := some (round2 spike.high)
               note := "Retrace | EMA reclaim | MFI" }
      else none

/-- `check_exit`: evaluate the latest enriched bar of `df` for an exit.
The Python function mutates `pos.highest_since_entry` in the TRAILING
branch, so the embedding returns the (possibly updated) position next to
the optional signal. -/
def check_exit (df : List ERow) (pos : ActivePosition) (tp_mode : TPMode)
    (trailing_pct : ℚ) : Option Signal × ActivePosition :=
  match df.getLast? with
  | none => (none, pos)
  | some latest =>
    let date := df.length - 1
    let close := latest.close
    if close ≤ pos.sl_price then
      (some { ticker := pos.ticker
              signal_type := .STOP_LOSS
              date := date
              price := close
              spike_event := pos.spike_event
              entry_price := some pos.entry_price
              sl_price := some pos.sl_price
              note := "SL hit" }, pos)
    else
      match tp_mode with
      | .BREAKOUT =>
        if pos.spike_event.high < close then
          (some { ticker := pos.ticker
                  signal_type := .TAKE_PROFIT
                  date := date
                  price := close
                  spike_event := pos.spike_event
                  entry_price := some pos.entry_price
                  tp_price := some pos.spike_event.high
                  note := "Breakout above spike high" }, pos)
        else (none, pos)
      | .MA_BREAKDOWN =>
        -- `close < latest.get("EMA", close + 1)`: the enriched frame always
        -- has the EMA column, and `close < NaN` is `False`.
        if decide (pos.entry_price < close) && optGt latest.EMA close then
          (some { ticker := pos.ticker
                  signal_type := .TAKE_PROFIT
                  date := date
                  price := close
                  spike_event := pos.spike_event
                  entry_price := some pos.entry_price
                  note := "MA breakdown (close < EMA) while in profit" }, pos)
        else (none, pos)
      | .TRAILING =>
        let pos' := { pos with highest_since_entry := max pos.highest_since_entry close }
        let trail_price := pos'.highest_since_entry * (1 - trailing_pct / 100)
        if decide (pos.entry_price < close) && decide (close < trail_price) then
          (some { ticker := pos.ticker
                  signal_type := .TAKE_PROFIT
                  date := date
                  price := close
                  spike_event := pos.spike_event
                  entry_price := some pos.entry_price
                  note := "Trailing stop" }, pos')
        else (none, pos')

/-! ### Backtest replay engine (src/src/backtest/strategy.py) -/

/-- `_ema`: `ewm(span=w, adjust=False)` — seeded by the first value,
`e[i] = α x[i] + (1 - α) e[i-1]` with `α = 2 / (w + 1)`. -/
def ema (f : Nat → ℚ) (w : Nat) : Nat → ℚ
  | 0 => f 0
  | i + 1 => (2 / (w + 1)) * f (i + 1) + (1 - 2 / (w + 1)) * ema f w i

/-- True range at bar `j`; the row-wise `max` skips the `NaN` of
`prev_close` on the first bar, leaving `high - low` there. -/
def trueRange (df : List Bar) (j : Nat) : ℚ :=
  if j = 0 then (barAt df j).high - (barAt df j).low
  else
    max ((barAt df j).high - (barAt df j).low)
      (max |(barAt df j).high - (barAt df (j - 1)).close|
        |(barAt df j).low - (barAt df (j - 1)).close|)

/-- `_atr`: rolling mean of the true range. -/
def atr (df : List Bar) (w i : Nat) : Option ℚ :=
  rollingMean (trueRange df) w i

/-- Typical price `(High + Low + Close) / 3`. -/
def typicalPrice (df : List Bar) (j : Nat) : ℚ :=
  ((barAt df j).high + (barAt df j).low + (barAt df j).close) / 3

/-- Raw money flow `typical price * volume`. -/
def rawMoneyFlow (df : List Bar) (j : Nat) : ℚ :=
  typicalPrice df j * (barAt df j).volume

/-- Positive money flow: `mf.where(delta > 0, 0)`; the first bar's `NaN`
delta fails the test, contributing `0`. -/
def posFlow (df : List Bar) (j : Nat) : ℚ :=
  if 1 ≤ j ∧ typicalPrice df (j - 1) < typicalPrice df j then rawMoneyFlow df j else 0

/-- Negative money flow: `mf.where(delta <= 0, 0)`; the first bar's `NaN`
delta fails the test, contributing `0`. -/
def negFlow (df : List Bar) (j : Nat) : ℚ :=
  if 1 ≤ j ∧ typicalPrice df j ≤ typicalPrice df (j - 1) then rawMoneyFlow df j else 0

/-- `_mfi`: `100 - 100 / (1 + pos/neg)` over rolling `w`-sums; a zero
negative-flow sum is replaced by `NaN` before the division, so the result
is "not available" rather than infinite. -/
def mfi (df : List Bar) (w i : Nat) : Option ℚ :=
  match rollingSumOpt (posFlow df) w i, rollingSumOpt (negFlow df) w i with
  | some p, some n => if n = 0 then none else some (100 - 100 / (1 + p / n))
  | _, _ => none

/-- `self.data.Close[-2] if len(self.data.Close) > 1 else close`. -/
def btPrevClose (df : List Bar) (i : Nat) : ℚ :=
  if i = 0 then (barAt df 0).close else (barAt df (i - 1)).close

/-- The backtest engine's spike condition inside `next()` (evaluated only
while flat): RVOL available and above threshold, green candle, close above
the previous close, price-position available and at least `0.5`. -/
def btSpikeCond (df : List Bar) (vol_window : Nat) (rvol_threshold : ℚ)
    (i : Nat) : Bool :=
  optGe (compute_rvol df vol_window i) rvol_threshold
    && decide ((barAt df i).opn < (barAt df i).close)
    && decide (btPrevClose df i < (barAt df i).close)
    && optGe (price_position df i) (1/2)

/-- Tuneable parameters of `VolumeSpikeRetracement`, with the class-level
defaults; `tp_mode` 1/2/3 is the `TPMode` enum. -/
structure BTParams where
  rvol_threshold : ℚ := 5
  retrace_pct : ℚ := 3
  ema_period : Nat := 10
  sl_pct : ℚ := 3
  tp_mode : TPMode := .TRAILING
  trailing_pct : ℚ := 3
  mfi_min : ℚ := 20
  vol_window : Nat := 20
deriving Repr, DecidableEq

/-- The strategy's mutable state: the spike-tracking variables (`np.nan`
is `none`) and the open position's entry price (`none` while flat).
Order fills are modelled as immediate at the signal bar's close; no
settled claim depends on the fill price or the broker's stop handling,
which live in the external `backtesting` library. -/
structure BTState where
  spike_close : Option ℚ := none
  pre_spike_close : Option ℚ := none
  spike_high : Option ℚ := none
  highest : ℚ := 0
  pos_entry : Option ℚ := none
deriving Repr, DecidableEq

/-- What one `next()` call did: opened a position (with its stop price) or
closed it at the take-profit rule. -/
inductive BTAction where
  | enter (sl : ℚ)
  | exitTP
deriving Repr, DecidableEq

/-- `_reset()` plus the closed position. -/
def btReset : BTState := {}

/-- One `next()` call of `VolumeSpikeRetracement` at bar `i`. -/
def btStep (df : List Bar) (p : BTParams) (i : Nat) (st : BTState) :
    BTState × Option BTAction :=
  let close := (barAt df i).close
  let prev_close := btPrevClose df i
  let ema_val := ema (fun j => (barAt df j).close) p.ema_period i
  let prev_ema := if i = 0 then ema_val
    else ema (fun j => (barAt df j).close) p.ema_period (i - 1)
  let mfi_val := mfi df 14 i
  let atr_val := atr df 14 i
  match st.pos_entry with
  | none =>
    -- detect new spike (only when flat)
    let st1 := if btSpikeCond df p.vol_window p.rvol_threshold i then
        { st with spike_close := some close
                  pre_spike_close := some prev_close
                  spike_high := some (barAt df i).high }
      else st
    -- check entry
    match st1.pre_spike_close with
    | none => (st1, none)
    | some psc =>
      if 0 < psc then
        let dist_pct := |close - psc| / psc * 100
        let reclaim := decide (ema_val < close) && decide (prev_close ≤ prev_ema)
        if decide (dist_pct ≤ p.retrace_pct) && reclaim && optGe mfi_val p.mfi_min then
          let pct_dist := psc * p.sl_pct / 100
          let atr_safe := atr_val.getD 0
          let sl0 := psc - max pct_dist atr_safe
          let sl := if close ≤ sl0 then close * (1 - p.sl_pct / 100) else sl0
          ({ st1 with pos_entry := some close, highest := close }, some (.enter sl))
        else (st1, none)
      else (st1, none)
  | some entry_price =>
    -- manage open position
    let st2 := { st with highest := max st.highest close }
    match p.tp_mode with
    | .BREAKOUT =>
      if optLt st2.spike_high close then (btReset, some .exitTP) else (st2, none)
    | .MA_BREAKDOWN =>
      if decide (entry_price < close) && decide (close < ema_val) then
        (btReset, some .exitTP)
      else (st2, none)
    | .TRAILING =>
      let trail := st2.highest * (1 - p.trailing_pct / 100)
      if decide (entry_price < close) && decide (close < trail) then
        (btReset, some .exitTP)
      else (st2, none)

/-! ### Live per-ticker loop (src/scripts/run_intraday.py, `main`) -/

/-- The `ActivePosition` that `main` builds from a fresh ENTRY signal
(`sl_price=sig.sl_price or 0`, `highest_since_entry=sig.price`). -/
def mkEntryPos (spike : SpikeEvent) (sig : Signal) : ActivePosition :=
  { ticker := spike.ticker
    entry_date := sig.date
    entry_price := sig.price
    spike_event := spike
    sl_price := sig.sl_price.getD 0
    tp_price := sig.tp_price
    highest_since_entry := sig.price }

/-- One ticker's pass of `main`'s signal loop: entry is evaluated only
when a recent spike exists and no position is open; then any open
position (including one just opened) is evaluated for exit, and an exit
signal removes the position.  The external dedup log (`_already_sent`)
is modelled as empty — it can only drop the handling of an
already-notified signal, never evaluate entry while a position is open. -/
def liveStep (edf : List ERow) (spike : Option SpikeEvent) (tp_mode : TPMode)
    (trailing_pct : ℚ) (st : Option ActivePosition) :
    Option ActivePosition × List Signal :=
  let entered : Option ActivePosition × List Signal :=
    match spike, st with
    | some sp, none =>
      match check_entry edf sp RETRACE_PCT MFI_MIN with
      | some sig => (some (mkEntryPos sp sig), [sig])
      | none => (none, [])
    | _, _ => (st, [])
  match entered with
  | (some pos, sigs) =>
    match check_exit edf pos tp_mode trailing_pct with
    | (some sig, _) => (none, sigs ++ [sig])
    | (none, pos') => (some pos', sigs)
  | (none, sigs) => (none, sigs)

/-! ### Persistence (src/scripts/run_intraday.py, `_save_position` /
`_load_positions`)

Timestamps travel through `str(...)`/`pd.Timestamp(...)`, which is the
identity on the date value; the embedding keeps the date itself in the
stored cell. -/

/-- The dict serialized into the `spike_json` column. -/
structure SpikeJson where
  ticker : String
  date : Nat
  rvol : ℚ
  close : ℚ
  prev_close : ℚ
  pct_change : ℚ
  high : ℚ
  low : ℚ
  volume : ℚ
  avg_txn_value : ℚ
deriving Repr, DecidableEq

/-- One row of the `active_positions` table, in column order
`(ticker, entry_date, entry_price, sl_price, tp_price, spike_json, highest)`. -/
structure DBRow where
  ticker : String
  entry_date : Nat
  entry_price : ℚ
  sl_price : ℚ
  tp_price : Option ℚ
  spike_json : SpikeJson
  highest : ℚ
deriving Repr, DecidableEq

/-- `_save_position`: build the row written by the `INSERT OR REPLACE`. -/
def save_position (pos : ActivePosition) : DBRow :=
  { ticker := pos.ticker
    entry_date := pos.entry_date
    entry_price := pos.entry_price
    sl_price := pos.sl_price
    tp_price := pos.tp_price
    spike_json :=
      { ticker := pos.spike_event.ticker
        date := pos.spike_event.date
        rvol := pos.spike_event.rvol
        close := pos.spike_event.close
        prev_close := pos.spike_event.prev_close
        pct_change := pos.spike_event.pct_change
        high := pos.spike_event.high
        low := pos.spike_event.low
        volume := pos.spike_event.volume
        avg_txn_value := pos.spike_event.avg_txn_value }
    highest := pos.highest_since_entry }

/-- `_load_positions`: rebuild one `ActivePosition` from a table row. -/
def load_position (r : DBRow) : ActivePosition :=
  { ticker := r.ticker
    entry_date := r.entry_date
    entry_price := r.entry_price
    spike_event :=
      { ticker := r.spike_json.ticker
        date := r.spike_json.date
        rvol := r.spike_json.rvol
        close := r.spike_json.close
        prev_close := r.spike_json.prev_close
        pct_change := r.spike_json.pct_change
        high := r.spike_json.high
        low := r.spike_json.low
        volume := r.spike_json.volume
        avg_txn_value := r.spike_json.avg_txn_value }
    sl_price := r.sl_price
    tp_price := r.tp_price
    highest_since_entry := r.highest }

/-! ### Example data used by witnesses -/

/-- A generic spike event used by concrete witnesses. -/
def exSpike : SpikeEvent :=
  { ticker := "X", date := 0, rvol := 5, close := 106, prev_close := 105,
    pct_change := 1, high := 107, low := 100, volume := 5000, avg_txn_value := 2000000 }

/-! ### C9 — persistence round-trip -/

/-- C9: saving an `ActivePosition` with `_save_position` and loading it back
with `_load_positions` reproduces every field, including every field of the
embedded `SpikeEvent` and an optional `tp_price`. -/
theorem save_load_roundtrip (pos : ActivePosition) :
    load_position (save_position pos) = pos := rfl

/-! ### C2 — adaptive stop-loss -/

/-- C2: `_adaptive_sl` returns `pre_spike_close - max(pre_spike_close*slPct/100, ATR)`,
falling back to `Close*(1 - slPct/100)` when that value is at or above the
entry close, and for positive `slPct` and a positive entry price the result
is always strictly below the entry price. -/
theorem adaptive_sl_valid (psc atrv slp e : ℚ) (hs : 0 < slp) (he : 0 < e) :
    adaptive_sl psc (some atrv) slp (some e)
        = (if e ≤ psc - max (psc * slp / 100) atrv then e * (1 - slp / 100)
           else psc - max (psc * slp / 100) atrv)
    ∧ adaptive_sl psc (some atrv) slp (some e) < e := by
  have hdef : adaptive_sl psc (some atrv) slp (some e)
      = if e ≤ psc - max (psc * slp / 100) atrv then e * (1 - slp / 100)
        else psc - max (psc * slp / 100) atrv := rfl
  refine ⟨hdef, ?_⟩
  rw [hdef]
  split_ifs with h
  · nlinarith [mul_pos he hs]
  · linarith [not_le.mp h]

/-- C2 witness: the spec's worked example `slPct = 5`, `pre_spike_close = 9100`,
`ATR = 50` gives `SL = 8645`, strictly below an entry close of `9000`. -/
theorem adaptive_sl_valid_witness :
    adaptive_sl 9100 (some 50) 5 (some 9000) < 9000
    ∧ adaptive_sl 9100 (some 50) 5 none = 8645 :=
  ⟨(adaptive_sl_valid 9100 50 5 9000 (by norm_num) (by norm_num)).2,
    by norm_num [adaptive_sl, max_def]⟩

/-! ### C3 — stop-loss priority -/

/-- C3: `check_exit` returns at most one signal (it returns an `Option`),
and whenever the latest close is at or below the position's stop price it
returns the STOP_LOSS signal — for every take-profit mode, even when that
mode's take-profit condition also holds on the same bar, and it leaves the
position unchanged. -/
theorem stop_loss_priority (df : List ERow) (pos : ActivePosition)
    (mode : TPMode) (t : ℚ) (r : ERow) (hr : df.getLast? = some r)
    (hsl : r.close ≤ pos.sl_price) :
    check_exit df pos mode t =
      (some { ticker := pos.ticker
              signal_type := .STOP_LOSS
              date := df.length - 1
              price := r.close
              spike_event := pos.spike_event
              entry_price := some pos.entry_price
              sl_price := some pos.sl_price
              note := "SL hit" }, pos) := by
  unfold check_exit
  rw [hr]
  simp [hsl]

/-- Example enriched row used by the C3, C5, C6 and C10 witnesses. -/
def exRow : ERow := ⟨90, 91, 89, 90, 1000, some 99, some 1, some 50, some 99⟩

/-- Example open position used by the C3, C6 and C10 witnesses. -/
def exPos : ActivePosition :=
  { ticker := "X", entry_date := 0, entry_price := 80, spike_event := exSpike,
    sl_price := 95, tp_price := none, highest_since_entry := 200 }

/-- C3 witness: a bar whose close (90) is below the stop (95) while the
trailing take-profit condition also holds (close above entry 80 and below
the trail `max(200, 90) * 0.97 = 194`): the STOP_LOSS signal is returned. -/
theorem stop_loss_priority_witness :
    check_exit [exRow] exPos .TRAILING 3 =
      (some { ticker := "X", signal_type := .STOP_LOSS, date := 0, price := 90,
              spike_event := exSpike, entry_price := some 80, sl_price := some 95,
              note := "SL hit" }, exPos) :=
  stop_loss_priority [exRow] exPos .TRAILING 3 exRow rfl (by norm_num [exRow, exPos])

/-! ### C10 — frame condition of `check_exit` -/

/-- C10: `check_exit` never changes the position's `ticker`, `entry_date`,
`entry_price`, `spike_event`, `sl_price` or `tp_price`; only
`highest_since_entry` can change, and in the BREAKOUT and MA_BREAKDOWN
modes the position is returned exactly as given. -/
theorem check_exit_frame (df : List ERow) (pos : ActivePosition)
    (mode : TPMode) (t : ℚ) :
    ((check_exit df pos mode t).2.ticker = pos.ticker
      ∧ (check_exit df pos mode t).2.entry_date = pos.entry_date
      ∧ (check_exit df pos mode t).2.entry_price = pos.entry_price
      ∧ (check_exit df pos mode t).2.spike_event = pos.spike_event
      ∧ (check_exit df pos mode t).2.sl_price = pos.sl_price
      ∧ (check_exit df pos mode t).2.tp_price = pos.tp_price)
    ∧ (mode = .BREAKOUT ∨ mode = .MA_BREAKDOWN → (check_exit df pos mode t).2 = pos) := by
  unfold check_exit
  cases df.getLast? with
  | none => exact ⟨⟨rfl, rfl, rfl, rfl, rfl, rfl⟩, fun _ => rfl⟩
  | some r =>
    cases mode <;> dsimp only <;> split_ifs <;>
      exact ⟨⟨rfl, rfl, rfl, rfl, rfl, rfl⟩,
        by rintro (hm | hm) <;> cases hm <;> rfl⟩

/-- C10 witness: a concrete BREAKOUT-mode call returns the position
exactly as given. -/
theorem check_exit_frame_witness :
    (check_exit [exRow] exPos .BREAKOUT 3).2 = exPos :=
  (check_exit_frame [exRow] exPos .BREAKOUT 3).2 (Or.inl rfl)

/-! ### C7 — no division by zero, no infinities -/

/-- Spike event with a non-positive pre-spike close, for the C7 witness. -/
def c7spike : SpikeEvent :=
  { ticker := "X", date := 0, rvol := 0, close := 0, prev_close := 0,
    pct_change := 0, high := 0, low := 0, volume := 0, avg_txn_value := 0 }

/-- C7: a zero rolling-average volume makes RVOL unavailable, a zero day
range makes price-position unavailable, a zero negative-money-flow sum
makes MFI unavailable, and a non-positive `pre_spike_close` makes
`check_entry` return no signal — all totally, with no division by zero. -/
theorem no_divide_by_zero :
    (∀ df w i, rollingMean (fun j => (barAt df j).volume) w i = some 0 →
        compute_rvol df w i = none)
    ∧ (∀ df i, (barAt df i).high = (barAt df i).low → price_position df i = none)
    ∧ (∀ df w i, rollingSumOpt (negFlow df) w i = some 0 → mfi df w i = none)
    ∧ (∀ edf spike r m, spike.prev_close ≤ 0 → check_entry edf spike r m = none) := by
  refine ⟨?_, ?_, ?_, ?_⟩
  · intro df w i h
    simp [compute_rvol, h]
  · intro df i h
    simp [price_position, h]
  · intro df w i h
    cases hp : rollingSumOpt (posFlow df) w i <;> simp [mfi, hp, h]
  · intro edf spike r m h
    unfold check_entry
    cases edf.getLast? with
    | none => rfl
    | some latest =>
      simp [is_near_entry, h]

/-- C7 witness: concrete inputs hitting each of the four guards. -/
theorem no_divide_by_zero_witness :
    compute_rvol [⟨1, 2, 1, 1, 0⟩] 1 0 = none
    ∧ price_position [⟨1, 5, 5, 5, 10⟩] 0 = none
    ∧ mfi [⟨1, 2, 1, 1, 0⟩] 1 0 = none
    ∧ check_entry [] c7spike 3 20 = none :=
  ⟨no_divide_by_zero.1 [⟨1, 2, 1, 1, 0⟩] 1 0
      (by norm_num [rollingMean, rollingSum, barAt]),
    no_divide_by_zero.2.1 [⟨1, 5, 5, 5, 10⟩] 0 rfl,
    no_divide_by_zero.2.2.1 [⟨1, 2, 1, 1, 0⟩] 1 0
      (by norm_num [rollingSumOpt, rollingSum, negFlow, rawMoneyFlow, typicalPrice, barAt]),
    no_divide_by_zero.2.2.2 [] c7spike 3 20 (by norm_num [c7spike])⟩

/-! ### C5 — trailing-stop ratchet -/

/-- Did an exit evaluation produce a TAKE_PROFIT signal? -/
def firedTP (o : Option Signal) : Bool :=
  match o with
  | none => false
  | some s => decide (s.signal_type = SignalType.TAKE_PROFIT)

/-- C5: in TRAILING mode, `check_exit` never decreases
`highest_since_entry`; on every call that reaches the trailing branch the
field becomes `max(previous, Close)` (with the stop at or below the
running high — true of every position the engine opens — the equation
holds on stop-loss bars too, since there `Close ≤ sl ≤ highest`); and
TAKE_PROFIT fires exactly when `Close > entry` and
`Close < highest_since_entry * (1 - trailingPct/100)`. -/
theorem trailing_ratchet :
    (∀ df pos t,
        pos.highest_since_entry ≤ ((check_exit df pos .TRAILING t).2).highest_since_entry)
    ∧ (∀ df pos t r, df.getLast? = some r →
        pos.sl_price ≤ pos.highest_since_entry →
        ((check_exit df pos .TRAILING t).2).highest_since_entry
          = max pos.highest_since_entry r.close)
    ∧ (∀ df pos t r, df.getLast? = some r → pos.sl_price < r.close →
        (firedTP (check_exit df pos .TRAILING t).1 = true ↔
          pos.entry_price < r.close
          ∧ r.close < max pos.highest_since_entry r.close * (1 - t / 100))) := by
  refine ⟨?_, ?_, ?_⟩
  · intro df pos t
    unfold check_exit
    cases df.getLast? with
    | none => exact le_refl _
    | some r =>
      dsimp only
      split_ifs <;> simp [le_max_left]
  · intro df pos t r hr hsl
    unfold check_exit
    rw [hr]
    dsimp only
    split_ifs with h
    · exact (max_eq_left (h.trans hsl)).symm
    · rfl
    · rfl
  · intro df pos t r hr hsl
    unfold check_exit
    rw [hr]
    dsimp only
    rw [if_neg (not_le.mpr hsl)]
    split_ifs with h <;>
      simp only [Bool.and_eq_true, decide_eq_true_eq] at h <;>
      simp [firedTP, h]

/-- Example row and position for the C5 witness: entry 100, stop 95,
running high 110, latest close 104; the trail is `110 * 0.97 = 106.7`,
so the trailing take-profit fires. -/
def c5row : ERow := ⟨104, 105, 103, 104, 1000, some 100, some 1, some 50, some 100⟩

/-- Position used by the C5 witness. -/
def c5pos : ActivePosition :=
  { ticker := "X", entry_date := 0, entry_price := 100, spike_event := exSpike,
    sl_price := 95, tp_price := none, highest_since_entry := 110 }

/-- C5 witness: the ratchet equation and the exact take-profit
characterization at a concrete bar. -/
theorem trailing_ratchet_witness :
    c5pos.highest_since_entry ≤ ((check_exit [c5row] c5pos .TRAILING 3).2).highest_since_entry
    ∧ ((check_exit [c5row] c5pos .TRAILING 3).2).highest_since_entry
        = max c5pos.highest_since_entry c5row.close
    ∧ (firedTP (check_exit [c5row] c5pos .TRAILING 3).1 = true ↔
        c5pos.entry_price < c5row.close
        ∧ c5row.close < max c5pos.highest_since_entry c5row.close * (1 - 3 / 100)) :=
  ⟨trailing_ratchet.1 [c5row] c5pos 3,
    trailing_ratchet.2.1 [c5row] c5pos 3 c5row rfl (by norm_num [c5row, c5pos]),
    trailing_ratchet.2.2 [c5row] c5pos 3 c5row rfl (by norm_num [c5row, c5pos])⟩

/-! ### C6 — entry suppression while a position is open -/

/-- Every signal `check_exit` can produce is a STOP_LOSS or a TAKE_PROFIT. -/
theorem check_exit_signal_kind (df : List ERow) (pos : ActivePosition)
    (mode : TPMode) (t : ℚ) (s : Signal)
    (h : (check_exit df pos mode t).1 = some s) :
    s.signal_type = .STOP_LOSS ∨ s.signal_type = .TAKE_PROFIT := by
  unfold check_exit at h
  rcases hl : df.getLast? with _ | r <;> rw [hl] at h
  · simp at h
  · cases mode <;> dsimp only at h <;> split_ifs at h <;>
      simp only [Option.some.injEq] at h <;>
      first
        | exact Or.inl (congrArg Signal.signal_type h.symm)
        | exact Or.inr (congrArg Signal.signal_type h.symm)

/-- C6: entries are suppressed while a position is open.  In the live loop
the state for a ticker is a single optional `ActivePosition` (at most one
position per ticker by construction); when it is occupied, `liveStep` only
ever emits exit signals, never an ENTRY.  In the backtest state machine,
`next()` with an open position never emits an entry action.  Both facts
hold for every state, hence for every reachable state. -/
theorem entry_suppressed_while_open :
    (∀ edf spike mode t pos s, s ∈ (liveStep edf spike mode t (some pos)).2 →
        s.signal_type ≠ .ENTRY)
    ∧ (∀ df p i st, st.pos_entry.isSome = true →
        ∀ sl, (btStep df p i st).2 ≠ some (.enter sl)) := by
  constructor
  · intro edf spike mode t pos s hs
    cases spike <;>
      · unfold liveStep at hs
        dsimp only at hs
        rcases hce : check_exit edf pos mode t with ⟨osig, pos'⟩
        rw [hce] at hs
        cases osig with
        | none => simp at hs
        | some sig =>
          dsimp only at hs
          simp only [List.nil_append, List.mem_singleton] at hs
          rcases check_exit_signal_kind edf pos mode t sig (by rw [hce]) with hk | hk <;>
            rw [hs] <;> simp [hk]
  · intro df p i st hopen sl
    rcases hpe : st.pos_entry with _ | e
    · rw [hpe] at hopen; simp at hopen
    · unfold btStep
      rw [hpe]
      dsimp only
      cases p.tp_mode <;> dsimp only <;> split_ifs <;> simp

/-- Stop-loss signal emitted by `liveStep` in the C6 witness. -/
def c6sig : Signal :=
  { ticker := "X", signal_type := .STOP_LOSS, date := 0, price := 90,
    spike_event := exSpike, entry_price := some 80, sl_price := some 95,
    note := "SL hit" }

/-- C6 witness: with an open position, a concrete `liveStep` emits only the
stop-loss signal (never ENTRY), and a concrete `btStep` with an open
position emits no entry action. -/
theorem entry_suppressed_witness :
    c6sig.signal_type ≠ SignalType.ENTRY
    ∧ (btStep [] {} 0 { pos_entry := some 100 }).2 ≠ some (.enter 1) :=
  ⟨entry_suppressed_while_open.1 [exRow] none .BREAKOUT 0 exPos c6sig
      (by norm_num [liveStep, check_exit, exRow, exPos, c6sig, exSpike]),
    entry_suppressed_while_open.2 [] {} 0 { pos_entry := some 100 } rfl 1⟩

/-! ### C1 — entry conditions (EMA reclaim)

`enrich` adds `EMA`, `ATR`, `MFI` and `prev_EMA` columns but no
`prev_close` column, so on its output `_ema_reclaim`'s
`row.get("prev_close", row["Close"])` falls back to the current close:
the code requires `Close ≤ prev_EMA` where the claim (and the backtest
engine, and the function's own docstring) requires
`previous Close ≤ previous EMA`.  The bars below separate the two:
previous close 90 ≤ previous EMA 100, and the current close 105 is above
the current EMA `(2/11)*105 + (9/11)*100 = 1110/11 ≈ 100.9` (the exact
period-10 `ewm` update, so the rows are a genuine `enrich` image) — a
true crossing, yet `check_entry` returns no signal. -/

/-- First (previous) enriched bar of the C1 failing input. -/
def c1row0 : ERow := ⟨89, 91, 88, 90, 1000, some 100, some 1, some 50, none⟩

/-- Latest enriched bar of the C1 failing input; its `prev_EMA` is the
previous bar's `EMA` and its `EMA` is the period-10 `ewm` update of it,
as `enrich` guarantees. -/
def c1row1 : ERow := ⟨100, 106, 100, 105, 1200, some (1110/11), some 2, some 50, some 100⟩

/-- The C1 failing input's enriched series. -/
def c1df : List ERow := [c1row0, c1row1]

/-- Spike event for the C1 failing input (pre-spike close 105, so the
latest bar has retraced exactly to the anchor). -/
def c1spike : SpikeEvent :=
  { ticker := "X", date := 0, rvol := 5, close := 106, prev_close := 105,
    pct_change := 1, high := 107, low := 100, volume := 5000, avg_txn_value := 2000000 }

/-- C1: on an enriched series where every condition of the claim holds —
the spike date (0) is strictly before the latest bar (1), the retrace
distance is 0 ≤ retracePct, MFI 50 ≥ mfiMin, the current close 105 is
above the current EMA 1110/11 and the previous close 90 is at or below
the previous EMA 100 (a true crossing) — `check_entry` still returns no
signal, because the missing `prev_close` column makes the code test the
current close (105) against the previous EMA (100) instead. -/
theorem check_entry_ema_reclaim_bug :
    check_entry c1df c1spike RETRACE_PCT MFI_MIN = none
    ∧ c1spike.date < c1df.length - 1
    ∧ is_near_entry c1row1.close c1spike.prev_close RETRACE_PCT = true
    ∧ optGe c1row1.MFI MFI_MIN = true
    ∧ optLt c1row1.EMA c1row1.close = true
    ∧ c1row0.close ≤ (c1row1.prev_EMA).getD 0 := by
  refine ⟨?_, by norm_num [c1spike, c1df], ?_, ?_, ?_, ?_⟩
  · norm_num [check_entry, c1df, c1spike, c1row0, c1row1, is_near_entry,
      ema_reclaim, optGe, optLt, RETRACE_PCT, MFI_MIN]
  · norm_num [is_near_entry, c1row1, c1spike, RETRACE_PCT]
  · norm_num [optGe, c1row1, MFI_MIN]
  · norm_num [optLt, c1row1]
  · norm_num [c1row0, c1row1]

/-! ### C4 — the six spike filters -/

/-- C4: `detect_spikes` emits an event dated at bar `i` exactly when the
series is long enough for the rolling statistics, `i` is a real bar, and
all six filters hold there: minimum price, rolling average transaction
value, RVOL, green candle, price position, and close above the previous
close.  The iff gives both directions of the claim: every event's bar
passes all six filters, and making any single filter false at a bar
removes that bar's event. -/
theorem detect_spikes_six_filters (df : List Bar) (tk : String) (w : Nat)
    (thr mp mat ppm : ℚ) (i : Nat) :
    (∃ e ∈ detect_spikes df tk w thr mp mat ppm, e.date = i) ↔
      (w + 1 ≤ df.length ∧ i < df.length
        ∧ mp ≤ (barAt df i).close
        ∧ optGe (compute_avg_txn_value df w i) mat = true
        ∧ optGe (compute_rvol df w i) thr = true
        ∧ (barAt df i).opn < (barAt df i).close
        ∧ optGe (price_position df i) ppm = true
        ∧ optLt (prevClose df i) (barAt df i).close = true) := by
  unfold detect_spikes
  split_ifs with hlen
  · constructor
    · rintro ⟨e, he, _⟩
      exact absurd he (List.not_mem_nil e)
    · rintro ⟨hw, _⟩
      exact absurd hw (by omega)
  · constructor
    · rintro ⟨e, he, hdate⟩
      rcases List.mem_map.mp he with ⟨j, hj, rfl⟩
      rcases List.mem_filter.mp hj with ⟨hjr, hmask⟩
      have hji : j = i := hdate
      subst hji
      have hn := List.mem_range.mp hjr
      unfold spikeMask at hmask
      simp only [Bool.and_eq_true, decide_eq_true_eq] at hmask
      obtain ⟨⟨⟨⟨⟨h1, h2⟩, h3⟩, h4⟩, h5⟩, h6⟩ := hmask
      exact ⟨by omega, hn, h1, h2, h3, h4, h5, h6⟩
    · rintro ⟨hw, hn, h1, h2, h3, h4, h5, h6⟩
      refine ⟨mkSpikeEvent df tk w i, ?_, rfl⟩
      apply List.mem_map.mpr
      refine ⟨i, List.mem_filter.mpr ⟨List.mem_range.mpr hn, ?_⟩, rfl⟩
      unfold spikeMask
      simp only [Bool.and_eq_true, decide_eq_true_eq]
      exact ⟨⟨⟨⟨⟨h1, h2⟩, h3⟩, h4⟩, h5⟩, h6⟩

/-! ### C8 — pre-spike anchor: live engine vs backtest engine -/

/-- Two-bar series separating the two engines' spike detection: bar 1 is
green, rising, in the upper half of its range, with RVOL 1 — but its
close (3) is far below the live detector's minimum price (100). -/
def c8df : List Bar := [⟨1, 3, 1, 2, 5⟩, ⟨2, 4, 2, 3, 5⟩]

/-- Backtest parameters matching the counterexample: volume window 1 and
RVOL threshold 1 (the remaining fields keep the class defaults). -/
def c8params : BTParams := { vol_window := 1, rvol_threshold := 1 }

/-- C8 counterexample: at bar 1 of `c8df` the backtest engine's spike
condition holds and its `next()` records `_pre_spike_close = 2`, while
`detect_spikes` with its configured thresholds (minimum price 100,
minimum average transaction value 1,000,000) returns no event at all:
the two engines do not designate the same spike days. -/
theorem live_backtest_anchor_disagree :
    btSpikeCond c8df 1 1 1 = true
    ∧ ((btStep c8df c8params 1 {}).1).pre_spike_close = some 2
    ∧ detect_spikes c8df "X" 1 1 MIN_PRICE MIN_AVG_TXN_VALUE PRICE_POSITION_MIN = [] := by
  refine ⟨?_, ?_, ?_⟩
  · norm_num [btSpikeCond, c8df, compute_rvol, rollingMean, rollingSum, barAt,
      price_position, btPrevClose, optGe, List.range_succ]
  · norm_num [btStep, c8params, c8df, btSpikeCond, compute_rvol, rollingMean,
      rollingSum, barAt, price_position, btPrevClose, mfi, rollingSumOpt,
      posFlow, negFlow, atr, trueRange, ema, optGe, optLt, typicalPrice,
      rawMoneyFlow, List.range_succ]
  · norm_num [detect_spikes, spikeMask, c8df, MIN_PRICE, MIN_AVG_TXN_VALUE,
      PRICE_POSITION_MIN, compute_rvol, compute_avg_txn_value, rollingMean,
      rollingSum, barAt, price_position, prevClose, optGe, optLt,
      List.range_succ]

/-- C8 amended: when the engines do agree on a spike bar, the anchors
agree exactly with no off-by-one — every `detect_spikes` event dated `i`
has `prev_close` equal to the close of bar `i - 1`, and whenever the
backtest engine detects a spike at bar `i` while flat, its recorded
`_pre_spike_close` is that same close of bar `i - 1`. -/
theorem anchor_agreement (df : List Bar) (tk : String) (w : Nat)
    (thr mp mat ppm : ℚ) (p : BTParams) (i : Nat) (st : BTState) :
    (∀ e ∈ detect_spikes df tk w thr mp mat ppm, e.date = i →
        1 ≤ i ∧ e.prev_close = (barAt df (i - 1)).close)
    ∧ (st.pos_entry = none → btSpikeCond df p.vol_window p.rvol_threshold i = true →
        1 ≤ i ∧ ((btStep df p i st).1).pre_spike_close
          = some ((barAt df (i - 1)).close)) := by
  constructor
  · intro e he hdate
    unfold detect_spikes at he
    split_ifs at he with hlen
    · exact absurd he (List.not_mem_nil e)
    · rcases List.mem_map.mp he with ⟨j, hj, rfl⟩
      rcases List.mem_filter.mp hj with ⟨hjr, hmask⟩
      have hji : j = i := hdate
      unfold spikeMask at hmask
      simp only [Bool.and_eq_true, decide_eq_true_eq] at hmask
      have h6 := hmask.2
      have hj0 : j ≠ 0 := by
        intro h0
        rw [h0] at h6
        simp [prevClose, optLt] at h6
      constructor
      · omega
      · rw [← hji]
        rfl
  · intro hflat hcond
    have hi : 1 ≤ i := by
      rcases Nat.eq_zero_or_pos i with h0 | h1
      · subst h0
        unfold btSpikeCond btPrevClose at hcond
        simp at hcond
      · exact h1
    refine ⟨hi, ?_⟩
    unfold btStep
    rw [hflat]
    dsimp only
    rw [hcond, if_pos (rfl : true = true)]
    dsimp only
    split_ifs <;>
      simp [btPrevClose, Nat.pos_iff_ne_zero.mp hi]

/-- C8 witness: with lenient live thresholds (minimum price 1, minimum
average transaction value 1, RVOL threshold 1, window 1) both engines
designate bar 1 of `c8df` as a spike, and both record the anchor
`close(bar 0) = 2`. -/
theorem anchor_agreement_witness :
    (1 ≤ 1 ∧ (mkSpikeEvent c8df "X" 1 1).prev_close = (barAt c8df 0).close)
    ∧ (1 ≤ 1 ∧ ((btStep c8df c8params 1 {}).1).pre_spike_close
        = some ((barAt c8df 0).close)) :=
  ⟨(anchor_agreement c8df "X" 1 1 1 1 (1/2) c8params 1 {}).1
      (mkSpikeEvent c8df "X" 1 1)
      (by
        unfold detect_spikes
        rw [if_neg (by norm_num [c8df])]
        exact List.mem_map.mpr ⟨1,
          List.mem_filter.mpr ⟨by norm_num [c8df],
            by norm_num [spikeMask, c8df, compute_rvol, compute_avg_txn_value,
              rollingMean, rollingSum, barAt, price_position, prevClose,
              optGe, optLt, List.range_succ]⟩, rfl⟩)
      rfl,
    (anchor_agreement c8df "X" 1 1 1 1 (1/2) c8params 1 {}).2 rfl
      (by norm_num [btSpikeCond, c8params, c8df, compute_rvol, rollingMean,
        rollingSum, barAt, price_position, btPrevClose, optGe, List.range_succ])⟩

end VSpike
